import Mathlib

/-!
# aws-s3-bucket-cleaner: the clean-up pipeline of `main.go`

A shallow embedding of `cleanUpObjects` (main.go, lines 60-111), of the guard
of `main` on the bucket and region names (lines 135-152), and of the test
doubles of `main_test.go` (`FakeClock`, `mockS3Client`).

Modelling conventions.

* An instant (`time.Time`) is an integer number of nanoseconds since the Unix
  epoch; a `time.Duration` is an integer number of nanoseconds (an int64).
* The pointer fields `Key` and `LastModified` of an `s3.Object` are taken to be
  set, as they are on every entry the service lists, so the dereferences on
  lines 65 and 68 are total.
* The closure `fn` of `cleanUpObjects` captures the slice `objectsToDelete` and
  appends to it; here it is a function from the slice before the call to the
  slice after it, together with the boolean it returns.
* `S3API` is an interface. A gateway is a record of its two methods used here,
  threaded over a state `σ` of the gateway's own (bucket contents, ...). The
  listing method receives the callback and can change the captured slice only
  by calling it, which is why its type is generic in the captured state.
* Logging is an observation only and is left out.
* Every call `cleanUpObjects` makes on the gateway is recorded, in order, in
  the `calls` field of the result.
-/

namespace S3Cleaner

/-! ## Data model -/

/-- An instant, `time.Time`, in nanoseconds since the Unix epoch. -/
abbrev Time := Int

/-- A span of time, `time.Duration`, in nanoseconds. -/
abbrev Duration := Int

/-- Largest `time.Duration`, `1<<63 - 1`. -/
def maxDuration : Duration := 2 ^ 63 - 1

/-- Smallest `time.Duration`, `-1 << 63`. -/
def minDuration : Duration := -(2 ^ 63)

def Nanosecond : Duration := 1
def Second : Duration := 1000000000 * Nanosecond
def Minute : Duration := 60 * Second

/-- The method `Time.Sub` of the Go library: the difference `t - u`, replaced by
the largest or smallest duration when it does not fit. -/
def Time.Sub (t u : Time) : Duration :=
  if t - u > maxDuration then maxDuration
  else if t - u < minDuration then minDuration
  else t - u

/-- The method `Time.Add` of the Go library. -/
def Time.Add (t : Time) (d : Duration) : Time := t + d

/-- Entry of a listing page, `s3.Object` (the two fields the program reads). -/
structure Object where
  Key : String
  LastModified : Time
  deriving DecidableEq, Repr

/-- Entry of a delete batch, `s3.ObjectIdentifier`. -/
structure ObjectIdentifier where
  Key : String
  deriving DecidableEq, Repr

/-- Entry of a delete response, `s3.DeletedObject`. -/
structure DeletedObject where
  Key : String
  deriving DecidableEq, Repr

structure ListObjectsV2Input where
  Bucket : String
  deriving DecidableEq, Repr

/-- One page of a listing, `s3.ListObjectsV2Output`. -/
structure ListObjectsV2Output where
  Contents : List Object
  deriving DecidableEq, Repr

/-- The batch inside a delete request, `s3.Delete`. -/
structure Delete where
  Objects : List ObjectIdentifier
  deriving DecidableEq, Repr

structure DeleteObjectsInput where
  Bucket : String
  Delete : Delete
  deriving DecidableEq, Repr

structure DeleteObjectsOutput where
  Deleted : List DeletedObject
  deriving DecidableEq, Repr

/-- A Go `error` value: a plain message, or an error wrapped with a message by
`errors.Wrapf`. -/
inductive Error where
  | msg (text : String)
  | wrapped (cause : Error) (text : String)
  deriving DecidableEq, Repr

/-- The function `errors.Wrapf` on a non-nil error. -/
def Wrapf (err : Error) (text : String) : Error := Error.wrapped err text

/-- `wraps e inner`: unwrapping `e` one level gives `inner`. -/
def wraps (e inner : Error) : Prop := ∃ text, e = Error.wrapped inner text

/-! ## Collaborators -/

/-- The interface `Clock`. -/
structure Clock where
  Since : Time → Duration

/-- The type of the page callback (`fn` in `cleanUpObjects`), over the state
`α` the closure captures. -/
abbrev PageFn (α : Type) := ListObjectsV2Output → Bool → α → α × Bool

/-- The two methods of `s3iface.S3API` the program calls, over a gateway state
`σ`. Both return the gateway's new state next to their Go results; a `none`
error is Go's `nil`, and so is a `none` output. -/
structure S3API (σ : Type) where
  ListObjectsV2Pages :
    (α : Type) → ListObjectsV2Input → PageFn α → σ → α → σ × α × Option Error
  DeleteObjects :
    DeleteObjectsInput → σ → σ × Option DeleteObjectsOutput × Option Error

/-- The struct `Client` (without its logger). -/
structure Client (σ : Type) where
  clock : Clock
  S3API : S3API σ

/-- The constructor `New`. -/
def New {σ : Type} (clock : Clock) (s3Client : S3API σ) : Client σ :=
  { clock := clock, S3API := s3Client }

/-- A call made on the gateway. -/
inductive Call where
  | list (input : ListObjectsV2Input)
  | delete (input : DeleteObjectsInput)
  deriving DecidableEq, Repr

/-- What a run of `cleanUpObjects` leaves: the two Go results `(int, error)`,
the gateway's state, and the calls made on the gateway in order. -/
structure Run (σ : Type) where
  state : σ
  calls : List Call
  count : Nat
  err : Option Error
  deriving DecidableEq, Repr

/-! ## The pipeline -/

/-- The closure `fn` of `cleanUpObjects` (lines 63-76): walks the page's
entries in order, appends an identifier for each entry whose age exceeds
`maxAge`, and returns `lastPage`. -/
def cleanUpObjects.fn (clock : Clock) (maxAge : Duration) :
    PageFn (List ObjectIdentifier) :=
  fun page lastPage objectsToDelete =>
    (page.Contents.foldl
      (fun acc object =>
        let age := clock.Since object.LastModified
        if age > maxAge then acc ++ [{ Key := object.Key }] else acc)
      objectsToDelete,
     lastPage)

/-- The method `cleanUpObjects` (lines 60-111), started with the gateway in
state `s`. -/
def cleanUpObjects {σ : Type} (c : Client σ) (s : σ)
    (bucket : String) (maxAge : Duration) (dryRun : Bool) : Run σ :=
  let listInput : ListObjectsV2Input := { Bucket := bucket }
  match c.S3API.ListObjectsV2Pages (List ObjectIdentifier) listInput
      (cleanUpObjects.fn c.clock maxAge) s [] with
  | (s1, _, some err) =>
    { state := s1, calls := [Call.list listInput], count := 0,
      err := some (Wrapf err "failed to list objects") }
  | (s1, objectsToDelete, none) =>
    if objectsToDelete.length = 0 then
      { state := s1, calls := [Call.list listInput], count := 0, err := none }
    else if dryRun then
      { state := s1, calls := [Call.list listInput], count := 0, err := none }
    else
      let deleteInput : DeleteObjectsInput :=
        { Bucket := bucket, Delete := { Objects := objectsToDelete } }
      match c.S3API.DeleteObjects deleteInput s1 with
      | (s2, _, some err) =>
        { state := s2, calls := [Call.list listInput, Call.delete deleteInput],
          count := 0, err := some (Wrapf err "failed to delete objects") }
      | (s2, deletedObjects, none) =>
        let deletedObjectsCount :=
          match deletedObjects with
          | some out => out.Deleted.length
          | none => 0
        { state := s2, calls := [Call.list listInput, Call.delete deleteInput],
          count := deletedObjectsCount, err := none }

/-! ## The guard of `main` -/

/-- How the process ends: `logger.Fatal()` logs its message and exits at once;
otherwise `os.Exit(exitCode)`. -/
inductive Exit where
  | fatal (text : String)
  | code (n : Nat)
  deriving DecidableEq, Repr

/-- What a run of `main` leaves. -/
structure MainRun (σ : Type) where
  exit : Exit
  calls : List Call
  state : σ

/-- The function `main` from the parsed flags on (lines 135-155).
`newS3Session` stands for lines 142 and 147 together: from the region, either an
error or the gateway built on the session. `clock` is the `RealClock`. -/
def main {σ : Type} (bucket region : String) (maxAge : Duration) (dryRun : Bool)
    (newS3Session : String → Except Error (S3API σ)) (clock : Clock) (s : σ) :
    MainRun σ :=
  if bucket = "" then
    { exit := Exit.fatal
        "bucket name not set from cli or environment variable BUCKET_NAME",
      calls := [], state := s }
  else if region = "" then
    { exit := Exit.fatal
        "bucket region not set from cli or environment variable BUCKET_REGION",
      calls := [], state := s }
  else
    match newS3Session region with
    | Except.error _ =>
      { exit := Exit.fatal "unable to create AWS session", calls := [],
        state := s }
    | Except.ok s3Client =>
      let client := New clock s3Client
      let r := cleanUpObjects client s bucket maxAge dryRun
      match r.err with
      | some _ => { exit := Exit.code 1, calls := r.calls, state := r.state }
      | none => { exit := Exit.code 0, calls := r.calls, state := r.state }

/-! ## Test doubles of `main_test.go` -/

/-- The method `FakeClock.Now`: 2022-01-12 00:00:00 UTC. -/
def FakeClock.Now : Time := 1641945600 * Second

/-- The clock `FakeClock`: `Since t` is `Now().Sub(t)`. -/
def FakeClock : Clock := { Since := fun t => Time.Sub FakeClock.Now t }

/-- The gateway `mockS3Client`: the listing hands the whole of `listObjects` to
the callback as one page flagged last and ignores what the callback returns;
the delete reports every requested key as deleted. It keeps no state. -/
def mockS3Client (listObjects : List Object) : S3API Unit where
  ListObjectsV2Pages := fun _ _ fn s a =>
    let output : ListObjectsV2Output := { Contents := listObjects }
    (s, (fn output true a).1, none)
  DeleteObjects := fun input s =>
    let deletedObjects := input.Delete.Objects.foldl
      (fun acc obj => acc ++ [({ Key := obj.Key } : DeletedObject)]) []
    (s, some { Deleted := deletedObjects }, none)

/-! ## Fixtures of `TestCleanUpObjects` -/

def obj10 : Object :=
  { Key := "10min-old", LastModified := Time.Add FakeClock.Now (-10 * Minute) }

def obj30 : Object :=
  { Key := "30min-old", LastModified := Time.Add FakeClock.Now (-30 * Minute) }

def obj60 : Object :=
  { Key := "60min-old", LastModified := Time.Add FakeClock.Now (-60 * Minute) }

/-! ## The storage backend

The production gateway is the AWS SDK, which is not part of the repository.
Its pagination loop is modelled after the SDK's documented contract for
`ListObjectsV2Pages`: the callback is called once per page, in order, with
`lastPage` true exactly on the final page, and paging stops as soon as the
callback returns false. -/

/-- The SDK's loop `for p.Next() { if !fn(p.Page(), !p.HasNextPage()) { break } };
return p.Err()` over a backend that serves `pages` in order and then, when
`listErr` is set, fails the request for the page after them. A page is the last
one when none follows and no failing request follows. -/
def sdkPages {α : Type} (fn : PageFn α) :
    List ListObjectsV2Output → Option Error → α → α × Option Error
  | [], listErr, a => (a, listErr)
  | page :: rest, listErr, a =>
    let lastPage := rest.isEmpty && listErr.isNone
    match fn page lastPage a with
    | (a1, true) => sdkPages fn rest listErr a1
    | (a1, false) => (a1, none)

/-- A backend given by what it serves: the pages of its listing, the failure
that ends the listing (if any), and its reply to a delete request. -/
structure Script where
  pages : List ListObjectsV2Output
  listErr : Option Error
  deleteReply : DeleteObjectsInput → Option DeleteObjectsOutput × Option Error

/-- The gateway over a scripted backend, behind the SDK's pagination loop. Its
state is its own log of the requests it received. -/
def scriptedS3 (sc : Script) : S3API (List Call) where
  ListObjectsV2Pages := fun _ input fn log a =>
    let r := sdkPages fn sc.pages sc.listErr a
    (log ++ [Call.list input], r.1, r.2)
  DeleteObjects := fun input log =>
    let r := sc.deleteReply input
    (log ++ [Call.delete input], r.1, r.2)

/-- A delete reply that reports every requested key as deleted. -/
def echoReply (input : DeleteObjectsInput) :
    Option DeleteObjectsOutput × Option Error :=
  (some { Deleted := input.Delete.Objects.map fun obj => { Key := obj.Key } },
   none)

/-- Splits a bucket's entries into listing pages of at most `maxKeys` entries
each, `cur` being the page under construction; an empty bucket is served as one
empty page. -/
def pagesFrom (maxKeys : Nat) : List Object → List Object → List ListObjectsV2Output
  | [], cur => [{ Contents := cur }]
  | o :: os, cur =>
    if cur.length < maxKeys then pagesFrom maxKeys os (cur ++ [o])
    else { Contents := cur } :: pagesFrom maxKeys os [o]

/-- The pages of a bucket's listing. -/
def pagesOf (maxKeys : Nat) (objects : List Object) : List ListObjectsV2Output :=
  match objects with
  | [] => [{ Contents := [] }]
  | o :: os => pagesFrom maxKeys os [o]

/-- A bucket as explicit state: the state is the list of stored objects; a
listing serves the current objects in pages of at most `maxKeys` through the
SDK's pagination loop; a delete removes every requested key and reports it as
deleted. -/
def bucketS3 (maxKeys : Nat) : S3API (List Object) where
  ListObjectsV2Pages := fun _ _ fn objects a =>
    let r := sdkPages fn (pagesOf maxKeys objects) none a
    (objects, r.1, r.2)
  DeleteObjects := fun input objects =>
    (objects.filter fun o => !(input.Delete.Objects.map (·.Key)).contains o.Key,
     some { Deleted := input.Delete.Objects.map fun obj => { Key := obj.Key } },
     none)

/-- A backend whose delete request fails while its response still lists one
key as deleted. -/
def partialFailure : Script :=
  { pages := [{ Contents := [obj30, obj60] }],
    listErr := none,
    deleteReply := fun _ =>
      (some { Deleted := [{ Key := "30min-old" }] }, some (Error.msg "InternalError")) }

/-- A gateway stub that hands `page` to the callback, not flagged last, and then
reports the failure `e` of the request for the next page, whatever the callback
returned. -/
def failingAfterPage (page : ListObjectsV2Output) (e : Error) : S3API Unit where
  ListObjectsV2Pages := fun _ _ fn s a => (s, (fn page false a).1, some e)
  DeleteObjects := fun input s => (s, (echoReply input).1, (echoReply input).2)

/-- A backend serving the three test objects as a single page and echoing
delete requests. -/
def threeObjects : Script :=
  { pages := [{ Contents := [obj10, obj30, obj60] }], listErr := none,
    deleteReply := echoReply }

/-- A backend serving a listing of two pages, the second holding the oldest
object, and echoing delete requests. -/
def twoPages : Script :=
  { pages := [{ Contents := [obj10, obj30] }, { Contents := [obj60] }],
    listErr := none, deleteReply := echoReply }

/-- A backend whose delete request succeeds and reports one of the two
requested keys as deleted. -/
def partialSuccess : Script :=
  { pages := [{ Contents := [obj30, obj60] }], listErr := none,
    deleteReply := fun _ => (some { Deleted := [{ Key := "30min-old" }] }, none) }

/-- A backend serving a listing of two pages with one object older than 20
minutes on each, and echoing delete requests. -/
def twoOldPages : Script :=
  { pages := [{ Contents := [obj30] }, { Contents := [obj60] }],
    listErr := none, deleteReply := echoReply }

/-! ## Derived notions used in the statements -/

/-- The keys of the entries of `objects` older than `maxAge`, in order. -/
def candidatesOf (clock : Clock) (maxAge : Duration) (objects : List Object) :
    List ObjectIdentifier :=
  (objects.filter fun o => decide (clock.Since o.LastModified > maxAge)).map
    fun o => { Key := o.Key }

/-- All entries of a listing, page after page. -/
def listed (pages : List ListObjectsV2Output) : List Object :=
  pages.flatMap fun p => p.Contents

/-- The number of entries in the `Deleted` list of a delete response, zero for a
nil response. -/
def reportedDeleted : Option DeleteObjectsOutput → Nat
  | some out => out.Deleted.length
  | none => 0

/-- The batches of the delete requests among `calls`. -/
def deleteBatches : List Call → List (List ObjectIdentifier)
  | [] => []
  | Call.list _ :: cs => deleteBatches cs
  | Call.delete input :: cs => input.Delete.Objects :: deleteBatches cs

/-! ## Lemmas on the callback and on the pagination loop -/

theorem foldl_append_candidates (clock : Clock) (maxAge : Duration)
    (objects : List Object) (acc : List ObjectIdentifier) :
    objects.foldl
      (fun acc object =>
        let age := clock.Since object.LastModified
        if age > maxAge then acc ++ [{ Key := object.Key }] else acc) acc
      = acc ++ candidatesOf clock maxAge objects := by
  induction objects generalizing acc with
  | nil => simp [candidatesOf]
  | cons o os ih =>
    simp only [List.foldl_cons]
    rw [ih]
    by_cases h : clock.Since o.LastModified > maxAge
    · simp [candidatesOf, h]
    · simp [candidatesOf, h]

/-- One call of the callback appends the keys of the page's entries older than
`maxAge`, in page order, and returns `lastPage`. -/
theorem fn_eq (clock : Clock) (maxAge : Duration) (page : ListObjectsV2Output)
    (lastPage : Bool) (acc : List ObjectIdentifier) :
    cleanUpObjects.fn clock maxAge page lastPage acc
      = (acc ++ candidatesOf clock maxAge page.Contents, lastPage) := by
  simp only [cleanUpObjects.fn]
  rw [foldl_append_candidates]

/-- Behind the SDK's loop the callback of `cleanUpObjects` is run on the first
page only: it returns `lastPage`, which stops the loop on every page but a final
one. -/
theorem sdkPages_fn_cons (clock : Clock) (maxAge : Duration)
    (page : ListObjectsV2Output) (rest : List ListObjectsV2Output)
    (listErr : Option Error) (acc : List ObjectIdentifier) :
    sdkPages (cleanUpObjects.fn clock maxAge) (page :: rest) listErr acc
      = (acc ++ candidatesOf clock maxAge page.Contents, none) := by
  simp only [sdkPages, fn_eq]
  cases rest with
  | nil =>
    cases listErr with
    | none => simp [sdkPages]
    | some e => simp
  | cons q qs => simp

theorem sdkPages_nil {α : Type} (fn : PageFn α) (listErr : Option Error) (a : α) :
    sdkPages fn [] listErr a = (a, listErr) := rfl

theorem mem_candidatesOf (clock : Clock) (maxAge : Duration)
    (objects : List Object) (k : ObjectIdentifier) :
    k ∈ candidatesOf clock maxAge objects ↔
      ∃ o ∈ objects, clock.Since o.LastModified > maxAge ∧ o.Key = k.Key := by
  cases k with
  | mk key =>
    simp only [candidatesOf, List.mem_map, List.mem_filter, decide_eq_true_eq,
      ObjectIdentifier.mk.injEq]
    constructor
    · rintro ⟨o, ⟨ho, hage⟩, hk⟩
      exact ⟨o, ho, hage, hk⟩
    · rintro ⟨o, ho, hage, hk⟩
      exact ⟨o, ⟨ho, hage⟩, hk⟩

theorem candidatesOf_length (clock : Clock) (maxAge : Duration)
    (objects : List Object) :
    (candidatesOf clock maxAge objects).length
      = objects.countP fun o => decide (clock.Since o.LastModified > maxAge) := by
  simp [candidatesOf, List.countP_eq_length_filter]

theorem candidatesOf_eq_nil (clock : Clock) (maxAge : Duration)
    (objects : List Object)
    (h : ∀ o ∈ objects, clock.Since o.LastModified ≤ maxAge) :
    candidatesOf clock maxAge objects = [] := by
  simp only [candidatesOf, List.map_eq_nil_iff, List.filter_eq_nil_iff,
    decide_eq_true_eq]
  intro o ho
  exact not_lt.mpr (h o ho)

/-! ## Unfolding `cleanUpObjects` along each of its paths -/

theorem cleanUp_list_failed {σ : Type} (c : Client σ) (s : σ) (bucket : String)
    (maxAge : Duration) (dryRun : Bool) (s1 : σ)
    (cands : List ObjectIdentifier) (e : Error)
    (hlist : c.S3API.ListObjectsV2Pages (List ObjectIdentifier)
      { Bucket := bucket } (cleanUpObjects.fn c.clock maxAge) s []
        = (s1, cands, some e)) :
    cleanUpObjects c s bucket maxAge dryRun
      = { state := s1, calls := [Call.list { Bucket := bucket }], count := 0,
          err := some (Wrapf e "failed to list objects") } := by
  simp only [cleanUpObjects, hlist]

theorem cleanUp_nothing {σ : Type} (c : Client σ) (s : σ) (bucket : String)
    (maxAge : Duration) (dryRun : Bool) (s1 : σ)
    (hlist : c.S3API.ListObjectsV2Pages (List ObjectIdentifier)
      { Bucket := bucket } (cleanUpObjects.fn c.clock maxAge) s []
        = (s1, [], none)) :
    cleanUpObjects c s bucket maxAge dryRun
      = { state := s1, calls := [Call.list { Bucket := bucket }], count := 0,
          err := none } := by
  simp [cleanUpObjects, hlist]

theorem cleanUp_dry {σ : Type} (c : Client σ) (s : σ) (bucket : String)
    (maxAge : Duration) (s1 : σ) (cands : List ObjectIdentifier)
    (hlist : c.S3API.ListObjectsV2Pages (List ObjectIdentifier)
      { Bucket := bucket } (cleanUpObjects.fn c.clock maxAge) s []
        = (s1, cands, none)) :
    cleanUpObjects c s bucket maxAge true
      = { state := s1, calls := [Call.list { Bucket := bucket }], count := 0,
          err := none } := by
  simp [cleanUpObjects, hlist]

theorem cleanUp_delete_failed {σ : Type} (c : Client σ) (s : σ) (bucket : String)
    (maxAge : Duration) (s1 s2 : σ) (cands : List ObjectIdentifier)
    (out : Option DeleteObjectsOutput) (e : Error)
    (hlist : c.S3API.ListObjectsV2Pages (List ObjectIdentifier)
      { Bucket := bucket } (cleanUpObjects.fn c.clock maxAge) s []
        = (s1, cands, none))
    (hne : cands ≠ [])
    (hdel : c.S3API.DeleteObjects
      { Bucket := bucket, Delete := { Objects := cands } } s1 = (s2, out, some e)) :
    cleanUpObjects c s bucket maxAge false
      = { state := s2,
          calls := [Call.list { Bucket := bucket },
            Call.delete { Bucket := bucket, Delete := { Objects := cands } }],
          count := 0, err := some (Wrapf e "failed to delete objects") } := by
  simp [cleanUpObjects, hlist, hne, hdel]

theorem cleanUp_deleted {σ : Type} (c : Client σ) (s : σ) (bucket : String)
    (maxAge : Duration) (s1 s2 : σ) (cands : List ObjectIdentifier)
    (out : Option DeleteObjectsOutput)
    (hlist : c.S3API.ListObjectsV2Pages (List ObjectIdentifier)
      { Bucket := bucket } (cleanUpObjects.fn c.clock maxAge) s []
        = (s1, cands, none))
    (hne : cands ≠ [])
    (hdel : c.S3API.DeleteObjects
      { Bucket := bucket, Delete := { Objects := cands } } s1 = (s2, out, none)) :
    cleanUpObjects c s bucket maxAge false
      = { state := s2,
          calls := [Call.list { Bucket := bucket },
            Call.delete { Bucket := bucket, Delete := { Objects := cands } }],
          count := reportedDeleted out, err := none } := by
  cases out <;> simp [cleanUpObjects, hlist, hne, hdel, reportedDeleted]

/-- Every delete request of a run carries the slice the listing call left. -/
theorem deleteBatches_eq {σ : Type} (c : Client σ) (s : σ) (bucket : String)
    (maxAge : Duration) (dryRun : Bool) (batch : List ObjectIdentifier)
    (hb : batch ∈ deleteBatches (cleanUpObjects c s bucket maxAge dryRun).calls) :
    batch = (c.S3API.ListObjectsV2Pages (List ObjectIdentifier)
      { Bucket := bucket } (cleanUpObjects.fn c.clock maxAge) s []).2.1 := by
  rcases hlist : c.S3API.ListObjectsV2Pages (List ObjectIdentifier)
      { Bucket := bucket } (cleanUpObjects.fn c.clock maxAge) s [] with ⟨s1, cands, e⟩
  cases e with
  | some e =>
    rw [cleanUp_list_failed c s bucket maxAge dryRun s1 cands e hlist] at hb
    simp [deleteBatches] at hb
  | none =>
    by_cases hne : cands = []
    · subst hne
      rw [cleanUp_nothing c s bucket maxAge dryRun s1 hlist] at hb
      simp [deleteBatches] at hb
    · cases dryRun with
      | true =>
        rw [cleanUp_dry c s bucket maxAge s1 cands hlist] at hb
        simp [deleteBatches] at hb
      | false =>
        rcases hdel : c.S3API.DeleteObjects
          { Bucket := bucket, Delete := { Objects := cands } } s1 with ⟨s2, out, e2⟩
        cases e2 with
        | some e2 =>
          rw [cleanUp_delete_failed c s bucket maxAge s1 s2 cands out e2 hlist hne hdel] at hb
          simpa [deleteBatches] using hb
        | none =>
          rw [cleanUp_deleted c s bucket maxAge s1 s2 cands out hlist hne hdel] at hb
          simpa [deleteBatches] using hb

/-- The listing call of a scripted backend, as `cleanUpObjects` makes it. -/
theorem scripted_list (sc : Script) (clock : Clock) (maxAge : Duration)
    (log : List Call) (input : ListObjectsV2Input) :
    (scriptedS3 sc).ListObjectsV2Pages (List ObjectIdentifier) input
        (cleanUpObjects.fn clock maxAge) log []
      = (log ++ [Call.list input],
         match sc.pages with
         | [] => ([], sc.listErr)
         | page :: _ => (candidatesOf clock maxAge page.Contents, none)) := by
  simp only [scriptedS3]
  cases hp : sc.pages with
  | nil => simp [sdkPages_nil]
  | cons page rest => simp [sdkPages_fn_cons]

/-- The candidates a scripted listing yields are keys of listed entries older
than `maxAge`. -/
theorem scripted_candidates_old (sc : Script) (clock : Clock) (maxAge : Duration)
    (log : List Call) (input : ListObjectsV2Input) (k : ObjectIdentifier)
    (hk : k ∈ ((scriptedS3 sc).ListObjectsV2Pages (List ObjectIdentifier) input
        (cleanUpObjects.fn clock maxAge) log []).2.1) :
    ∃ o ∈ listed sc.pages, clock.Since o.LastModified > maxAge ∧ o.Key = k.Key := by
  rw [scripted_list] at hk
  cases hp : sc.pages with
  | nil => simp [hp] at hk
  | cons page rest =>
    simp only [hp] at hk
    obtain ⟨o, ho, hage, hkey⟩ := (mem_candidatesOf clock maxAge _ k).mp hk
    exact ⟨o, by simp [listed, ho], hage, hkey⟩

/-- The listing call of the test gateway. -/
theorem mock_list (listObjects : List Object) (clock : Clock) (maxAge : Duration)
    (input : ListObjectsV2Input) :
    (mockS3Client listObjects).ListObjectsV2Pages (List ObjectIdentifier) input
        (cleanUpObjects.fn clock maxAge) () []
      = ((), candidatesOf clock maxAge listObjects, none) := by
  simp [mockS3Client, fn_eq]

theorem foldl_echo (objs : List ObjectIdentifier) (acc : List DeletedObject) :
    objs.foldl (fun acc obj => acc ++ [({ Key := obj.Key } : DeletedObject)]) acc
      = acc ++ objs.map fun obj => { Key := obj.Key } := by
  induction objs generalizing acc with
  | nil => simp
  | cons x xs ih => simp [ih]

/-- The delete call of the test gateway echoes the batch. -/
theorem mock_delete (listObjects : List Object) (input : DeleteObjectsInput) :
    (mockS3Client listObjects).DeleteObjects input ()
      = ((), some { Deleted := input.Delete.Objects.map fun obj => { Key := obj.Key } },
         none) := by
  simp [mockS3Client, foldl_echo]

theorem since_obj10 : FakeClock.Since obj10.LastModified = 10 * Minute := by
  decide

theorem since_obj30 : FakeClock.Since obj30.LastModified = 30 * Minute := by
  decide

theorem since_obj60 : FakeClock.Since obj60.LastModified = 60 * Minute := by
  decide

/-- The test gateway serving `listObjects` and the scripted backend serving the
same objects as one final page and echoing delete requests give runs with the
same calls, count and error. -/
theorem mock_as_scripted (listObjects : List Object) (clock : Clock)
    (log : List Call) (bucket : String) (maxAge : Duration) (dryRun : Bool) :
    (cleanUpObjects (New clock (mockS3Client listObjects)) () bucket maxAge
        dryRun).calls
        = (cleanUpObjects
            (New clock (scriptedS3
              { pages := [{ Contents := listObjects }], listErr := none,
                deleteReply := echoReply }))
            log bucket maxAge dryRun).calls
      ∧ (cleanUpObjects (New clock (mockS3Client listObjects)) () bucket maxAge
          dryRun).count
        = (cleanUpObjects
            (New clock (scriptedS3
              { pages := [{ Contents := listObjects }], listErr := none,
                deleteReply := echoReply }))
            log bucket maxAge dryRun).count
      ∧ (cleanUpObjects (New clock (mockS3Client listObjects)) () bucket maxAge
          dryRun).err
        = (cleanUpObjects
            (New clock (scriptedS3
              { pages := [{ Contents := listObjects }], listErr := none,
                deleteReply := echoReply }))
            log bucket maxAge dryRun).err := by
  have hm := mock_list listObjects clock maxAge { Bucket := bucket }
  have hs := scripted_list
    { pages := [{ Contents := listObjects }], listErr := none,
      deleteReply := echoReply } clock maxAge log { Bucket := bucket }
  simp only at hs
  by_cases hne : candidatesOf clock maxAge listObjects = []
  · rw [hne] at hm hs
    rw [cleanUp_nothing (New clock (mockS3Client listObjects)) () bucket maxAge
      dryRun () hm, cleanUp_nothing _ log bucket maxAge dryRun _ hs]
    exact ⟨rfl, rfl, rfl⟩
  · cases dryRun with
    | true =>
      rw [cleanUp_dry (New clock (mockS3Client listObjects)) () bucket maxAge
        () _ hm, cleanUp_dry _ log bucket maxAge _ _ hs]
      exact ⟨rfl, rfl, rfl⟩
    | false =>
      rw [cleanUp_deleted (New clock (mockS3Client listObjects)) () bucket maxAge
        () () _ _ hm hne (mock_delete listObjects _),
        cleanUp_deleted _ log bucket maxAge _ _ _ _ hs hne rfl]
      exact ⟨rfl, rfl, rfl⟩

/-! ## The bucket as explicit state -/

theorem pagesFrom_fit (maxKeys : Nat) (os cur : List Object)
    (hfit : cur.length + os.length ≤ maxKeys) :
    pagesFrom maxKeys os cur = [{ Contents := cur ++ os }] := by
  induction os generalizing cur with
  | nil => simp [pagesFrom]
  | cons o os ih =>
    have hlt : cur.length < maxKeys := by
      simp only [List.length_cons] at hfit
      omega
    simp only [pagesFrom, hlt, if_true]
    rw [ih (cur ++ [o]) (by simp only [List.length_append, List.length_cons,
      List.length_nil] at hfit ⊢; omega)]
    simp

/-- A bucket holding at most `maxKeys` objects is listed as one page. -/
theorem pagesOf_fit (maxKeys : Nat) (objects : List Object)
    (hfit : objects.length ≤ maxKeys) :
    pagesOf maxKeys objects = [{ Contents := objects }] := by
  cases objects with
  | nil => rfl
  | cons o os =>
    simp only [pagesOf]
    rw [pagesFrom_fit maxKeys os [o] (by simpa [Nat.add_comm] using hfit)]
    simp

theorem bucket_list_fit (maxKeys : Nat) (objects : List Object) (clock : Clock)
    (maxAge : Duration) (input : ListObjectsV2Input)
    (hfit : objects.length ≤ maxKeys) :
    (bucketS3 maxKeys).ListObjectsV2Pages (List ObjectIdentifier) input
        (cleanUpObjects.fn clock maxAge) objects []
      = (objects, candidatesOf clock maxAge objects, none) := by
  simp [bucketS3, pagesOf_fit maxKeys objects hfit, sdkPages_fn_cons]

/-- Once the keys of the old entries are removed, no old entry is left. -/
theorem candidatesOf_after_delete (clock : Clock) (maxAge : Duration)
    (objects : List Object) :
    candidatesOf clock maxAge
        (objects.filter fun o =>
          !((candidatesOf clock maxAge objects).map (·.Key)).contains o.Key)
      = [] := by
  apply candidatesOf_eq_nil
  intro o ho
  simp only [List.mem_filter, Bool.not_eq_true', List.contains_eq_any_beq,
    List.any_eq_false, beq_iff_eq, List.mem_map, forall_exists_index, and_imp,
    forall_apply_eq_imp_iff₂] at ho
  by_contra hold
  have hmem : ({ Key := o.Key } : ObjectIdentifier) ∈ candidatesOf clock maxAge objects :=
    (mem_candidatesOf clock maxAge objects _).mpr ⟨o, ho.1, not_le.mp hold, rfl⟩
  exact ho.2 _ hmem rfl

/-- On a bucket that is listed as a single page, a second run right after a
non-dry run finds nothing to delete. -/
theorem idempotent_on_single_page (maxKeys : Nat) (objects : List Object)
    (clock : Clock) (bucket : String) (maxAge : Duration)
    (hfit : objects.length ≤ maxKeys) :
    cleanUpObjects (New clock (bucketS3 maxKeys))
        (cleanUpObjects (New clock (bucketS3 maxKeys)) objects bucket maxAge false).state
        bucket maxAge false
      = { state :=
            (cleanUpObjects (New clock (bucketS3 maxKeys)) objects bucket maxAge
              false).state,
          calls := [Call.list { Bucket := bucket }], count := 0, err := none } := by
  have hlist := bucket_list_fit maxKeys objects clock maxAge { Bucket := bucket } hfit
  by_cases hne : candidatesOf clock maxAge objects = []
  · rw [hne] at hlist
    rw [cleanUp_nothing (New clock (bucketS3 maxKeys)) objects bucket maxAge false
      objects hlist]
    exact cleanUp_nothing (New clock (bucketS3 maxKeys)) objects bucket maxAge false
      objects hlist
  · rw [cleanUp_deleted (New clock (bucketS3 maxKeys)) objects bucket maxAge
      objects _ _ _ hlist hne rfl]
    apply cleanUp_nothing
    have hfit2 : (objects.filter fun o =>
        !((candidatesOf clock maxAge objects).map (·.Key)).contains o.Key).length
          ≤ maxKeys :=
      le_trans (List.length_filter_le _ _) hfit
    have := bucket_list_fit maxKeys _ clock maxAge { Bucket := bucket } hfit2
    rw [candidatesOf_after_delete] at this
    exact this

/-! ## Claims -/

/-- C2, strict threshold. For every scripted listing (any pages, any ending
failure, any delete reply), every `maxAge`, every `dryRun` and every listed
entry `o` with `clock.Since o.LastModified ≤ maxAge` whose key no other listed
entry bears: the key of `o` is not in the candidate slice the listing call
leaves, and not in the batch of any delete request of the run. An age equal to
`maxAge` is covered, the comparison being strict. -/
theorem strict_threshold (sc : Script) (clock : Clock) (log : List Call)
    (bucket : String) (maxAge : Duration) (dryRun : Bool) (o : Object)
    (ho : o ∈ listed sc.pages)
    (hage : clock.Since o.LastModified ≤ maxAge)
    (hkey : ∀ o' ∈ listed sc.pages, o'.Key = o.Key → o' = o) :
    ({ Key := o.Key } : ObjectIdentifier) ∉
        ((scriptedS3 sc).ListObjectsV2Pages (List ObjectIdentifier)
          { Bucket := bucket } (cleanUpObjects.fn clock maxAge) log []).2.1
      ∧ ∀ batch ∈ deleteBatches
          (cleanUpObjects (New clock (scriptedS3 sc)) log bucket maxAge dryRun).calls,
        ({ Key := o.Key } : ObjectIdentifier) ∉ batch := by
  have hcand : ({ Key := o.Key } : ObjectIdentifier) ∉
      ((scriptedS3 sc).ListObjectsV2Pages (List ObjectIdentifier)
        { Bucket := bucket } (cleanUpObjects.fn clock maxAge) log []).2.1 := by
    intro hk
    obtain ⟨o', ho', hold, hk'⟩ := scripted_candidates_old sc clock maxAge log _ _ hk
    have heq : o' = o := hkey o' ho' hk'
    subst heq
    exact absurd hold (not_lt.mpr hage)
  refine ⟨hcand, ?_⟩
  intro batch hb
  have := deleteBatches_eq (New clock (scriptedS3 sc)) log bucket maxAge dryRun batch hb
  rw [this]
  exact hcand

/-- The delete phase, from the candidate slice on. For every gateway and every
run with `dryRun` false whose listing call returns no error and leaves a
non-empty candidate slice `cands`: the calls of the run are the listing followed
by exactly one delete request, for the same bucket, whose batch is `cands`; the
gateway is left in the state of that delete call; when the delete call returns
no error the run returns no error and the number of entries of the reported
`Deleted` list, whatever that number is; and the callback adds to the slice, for
each page it is handed, exactly the keys of that page's entries older than
`maxAge`, in page order. Which pages are handed to the callback is not part of
this statement. -/
theorem non_dry_run_delete {σ : Type} (c : Client σ) (s : σ) (bucket : String)
    (maxAge : Duration) (s1 : σ) (cands : List ObjectIdentifier)
    (hlist : c.S3API.ListObjectsV2Pages (List ObjectIdentifier)
      { Bucket := bucket } (cleanUpObjects.fn c.clock maxAge) s []
        = (s1, cands, none))
    (hne : cands ≠ []) :
    (cleanUpObjects c s bucket maxAge false).calls
        = [Call.list { Bucket := bucket },
           Call.delete { Bucket := bucket, Delete := { Objects := cands } }]
      ∧ (cleanUpObjects c s bucket maxAge false).state
        = (c.S3API.DeleteObjects
            { Bucket := bucket, Delete := { Objects := cands } } s1).1
      ∧ ((c.S3API.DeleteObjects
            { Bucket := bucket, Delete := { Objects := cands } } s1).2.2 = none →
          (cleanUpObjects c s bucket maxAge false).err = none
          ∧ (cleanUpObjects c s bucket maxAge false).count
            = reportedDeleted (c.S3API.DeleteObjects
                { Bucket := bucket, Delete := { Objects := cands } } s1).2.1)
      ∧ ∀ (page : ListObjectsV2Output) (lastPage : Bool)
          (acc : List ObjectIdentifier),
          (cleanUpObjects.fn c.clock maxAge page lastPage acc).1
            = acc ++ candidatesOf c.clock maxAge page.Contents := by
  rcases hdel : c.S3API.DeleteObjects
    { Bucket := bucket, Delete := { Objects := cands } } s1 with ⟨s2, out, e2⟩
  refine ⟨?_, ?_, ?_, fun page lastPage acc => by rw [fn_eq]⟩
  · cases e2 with
    | some e2 =>
      rw [cleanUp_delete_failed c s bucket maxAge s1 s2 cands out e2 hlist hne hdel]
    | none =>
      rw [cleanUp_deleted c s bucket maxAge s1 s2 cands out hlist hne hdel]
  · cases e2 with
    | some e2 =>
      rw [cleanUp_delete_failed c s bucket maxAge s1 s2 cands out e2 hlist hne hdel]
    | none =>
      rw [cleanUp_deleted c s bucket maxAge s1 s2 cands out hlist hne hdel]
  · intro he
    simp only at he
    subst he
    rw [cleanUp_deleted c s bucket maxAge s1 s2 cands out hlist hne hdel]
    exact ⟨rfl, rfl⟩

/-- C4, dry run has no side effect. For every gateway and every run with
`dryRun` true whose listing call returns no error and leaves a non-empty
candidate slice: the run returns count 0 and no error, its only call on the
gateway is the listing (no delete request), and the gateway is left in the state
the listing call left it in. -/
theorem dry_run_no_side_effect {σ : Type} (c : Client σ) (s : σ)
    (bucket : String) (maxAge : Duration) (s1 : σ)
    (cands : List ObjectIdentifier)
    (hlist : c.S3API.ListObjectsV2Pages (List ObjectIdentifier)
      { Bucket := bucket } (cleanUpObjects.fn c.clock maxAge) s []
        = (s1, cands, none))
    (_hne : cands ≠ []) :
    (cleanUpObjects c s bucket maxAge true).count = 0
      ∧ (cleanUpObjects c s bucket maxAge true).err = none
      ∧ (cleanUpObjects c s bucket maxAge true).calls
        = [Call.list { Bucket := bucket }]
      ∧ deleteBatches (cleanUpObjects c s bucket maxAge true).calls = []
      ∧ (cleanUpObjects c s bucket maxAge true).state = s1 := by
  rw [cleanUp_dry c s bucket maxAge s1 cands hlist]
  simp [deleteBatches]

/-- C5, nothing to do. For every scripted listing whose listing call returns no
error and in which no listed entry, on any page, is older than `maxAge` (the
empty bucket included), and for either value of `dryRun`: the run returns count
0 and no error, its only call on the gateway is the listing, and the gateway's
own log holds that listing request and no delete request. -/
theorem nothing_to_do (sc : Script) (clock : Clock) (log : List Call)
    (bucket : String) (maxAge : Duration) (dryRun : Bool)
    (hok : ((scriptedS3 sc).ListObjectsV2Pages (List ObjectIdentifier)
      { Bucket := bucket } (cleanUpObjects.fn clock maxAge) log []).2.2 = none)
    (hyoung : ∀ o ∈ listed sc.pages, clock.Since o.LastModified ≤ maxAge) :
    cleanUpObjects (New clock (scriptedS3 sc)) log bucket maxAge dryRun
      = { state := log ++ [Call.list { Bucket := bucket }],
          calls := [Call.list { Bucket := bucket }], count := 0, err := none } := by
  apply cleanUp_nothing
  simp only [New]
  rw [scripted_list] at hok ⊢
  cases hp : sc.pages with
  | nil =>
    simp only [hp] at hok
    simp [hok]
  | cons page rest =>
    have : candidatesOf clock maxAge page.Contents = [] := by
      apply candidatesOf_eq_nil
      intro o ho
      exact hyoung o (by simp [listed, hp, ho])
    simp [this]

/-- C6, list failure is terminal. For every gateway: whenever the listing call
returns an error `e`, whatever candidate slice `cands` the pages delivered
before the failure have left, the run returns count 0 and the error
`Wrapf e "failed to list objects"`, which wraps `e`; its only call on the
gateway is the listing, and the gateway is left in the state the listing call
left it in. -/
theorem list_failure_is_terminal {σ : Type} (c : Client σ) (s : σ)
    (bucket : String) (maxAge : Duration) (dryRun : Bool) (s1 : σ)
    (cands : List ObjectIdentifier) (e : Error)
    (hlist : c.S3API.ListObjectsV2Pages (List ObjectIdentifier)
      { Bucket := bucket } (cleanUpObjects.fn c.clock maxAge) s []
        = (s1, cands, some e)) :
    (cleanUpObjects c s bucket maxAge dryRun).count = 0
      ∧ (cleanUpObjects c s bucket maxAge dryRun).err
        = some (Wrapf e "failed to list objects")
      ∧ wraps (Wrapf e "failed to list objects") e
      ∧ (cleanUpObjects c s bucket maxAge dryRun).calls
        = [Call.list { Bucket := bucket }]
      ∧ deleteBatches (cleanUpObjects c s bucket maxAge dryRun).calls = []
      ∧ (cleanUpObjects c s bucket maxAge dryRun).state = s1 := by
  rw [cleanUp_list_failed c s bucket maxAge dryRun s1 cands e hlist]
  exact ⟨rfl, rfl, ⟨_, rfl⟩, rfl, rfl, rfl⟩

/-- C7, amended. For every gateway and every run with `dryRun` false whose
listing call returns no error and leaves a non-empty candidate slice: whenever
the delete call returns an error `e`, the run returns the error
`Wrapf e "failed to delete objects"`, which wraps `e`, and count 0, whatever
response `out` came with the error. -/
theorem delete_failure_returns_zero {σ : Type} (c : Client σ) (s : σ)
    (bucket : String) (maxAge : Duration) (s1 s2 : σ)
    (cands : List ObjectIdentifier) (out : Option DeleteObjectsOutput)
    (e : Error)
    (hlist : c.S3API.ListObjectsV2Pages (List ObjectIdentifier)
      { Bucket := bucket } (cleanUpObjects.fn c.clock maxAge) s []
        = (s1, cands, none))
    (hne : cands ≠ [])
    (hdel : c.S3API.DeleteObjects
      { Bucket := bucket, Delete := { Objects := cands } } s1 = (s2, out, some e)) :
    (cleanUpObjects c s bucket maxAge false).err
        = some (Wrapf e "failed to delete objects")
      ∧ wraps (Wrapf e "failed to delete objects") e
      ∧ (cleanUpObjects c s bucket maxAge false).count = 0
      ∧ (cleanUpObjects c s bucket maxAge false).calls
        = [Call.list { Bucket := bucket },
           Call.delete { Bucket := bucket, Delete := { Objects := cands } }] := by
  rw [cleanUp_delete_failed c s bucket maxAge s1 s2 cands out e hlist hne hdel]
  exact ⟨rfl, ⟨_, rfl⟩, rfl, rfl⟩

/-- Witness of C2: of the three test objects served as one page, the one aged
exactly 30 minutes is kept out of the candidates and of the batch when `maxAge`
is 30 minutes. -/
theorem strict_threshold_witness :
    FakeClock.Since obj30.LastModified ≤ 30 * Minute
      ∧ ({ Key := "30min-old" } : ObjectIdentifier) ∉
          ((scriptedS3 threeObjects).ListObjectsV2Pages (List ObjectIdentifier)
            { Bucket := "bucket" } (cleanUpObjects.fn FakeClock (30 * Minute)) [] []).2.1
      ∧ deleteBatches
          (cleanUpObjects (New FakeClock (scriptedS3 threeObjects)) [] "bucket"
            (30 * Minute) false).calls = [[{ Key := "60min-old" }]] :=
  ⟨by decide,
   (strict_threshold threeObjects FakeClock [] "bucket" (30 * Minute) false obj30
      (by decide) (by decide) (by decide)).1,
   by decide⟩

/-- The delete phase at a concrete run: two candidates, of which the backend
reports one deleted; one delete request with both keys, count 1, no error. -/
theorem non_dry_run_delete_witness :
    (cleanUpObjects (New FakeClock (scriptedS3 partialSuccess)) [] "bucket"
        (20 * Minute) false).calls
        = [Call.list { Bucket := "bucket" },
           Call.delete
             { Bucket := "bucket",
               Delete := { Objects := [{ Key := "30min-old" }, { Key := "60min-old" }] } }]
      ∧ (cleanUpObjects (New FakeClock (scriptedS3 partialSuccess)) [] "bucket"
          (20 * Minute) false).err = none
      ∧ (cleanUpObjects (New FakeClock (scriptedS3 partialSuccess)) [] "bucket"
          (20 * Minute) false).count = 1 :=
  have h := non_dry_run_delete (New FakeClock (scriptedS3 partialSuccess)) []
    "bucket" (20 * Minute) [Call.list { Bucket := "bucket" }]
    [{ Key := "30min-old" }, { Key := "60min-old" }] (by decide) (by decide)
  ⟨h.1, (h.2.2.1 rfl).1, (h.2.2.1 rfl).2⟩

/-- Witness of C4: two candidates under a dry run; the gateway's log holds the
listing request only. -/
theorem dry_run_no_side_effect_witness :
    (cleanUpObjects (New FakeClock (scriptedS3 threeObjects)) [] "bucket"
        (20 * Minute) true).count = 0
      ∧ (cleanUpObjects (New FakeClock (scriptedS3 threeObjects)) [] "bucket"
          (20 * Minute) true).err = none
      ∧ (cleanUpObjects (New FakeClock (scriptedS3 threeObjects)) [] "bucket"
          (20 * Minute) true).state = [Call.list { Bucket := "bucket" }] :=
  have h := dry_run_no_side_effect (New FakeClock (scriptedS3 threeObjects)) []
    "bucket" (20 * Minute) [Call.list { Bucket := "bucket" }]
    [{ Key := "30min-old" }, { Key := "60min-old" }] (by decide) (by decide)
  ⟨h.1, h.2.1, h.2.2.2.2⟩

/-- Witness of C5: the three test objects with `maxAge` one hour, none of them
older. -/
theorem nothing_to_do_witness :
    cleanUpObjects (New FakeClock (scriptedS3 threeObjects)) [] "bucket"
        (60 * Minute) false
      = { state := [Call.list { Bucket := "bucket" }],
          calls := [Call.list { Bucket := "bucket" }], count := 0, err := none } :=
  nothing_to_do threeObjects FakeClock [] "bucket" (60 * Minute) false
    (by decide) (by decide)

/-- Witness of C6: a gateway that delivers a page holding two objects older than
`maxAge` and then fails; count 0, the wrapped error, no delete request. -/
theorem list_failure_is_terminal_witness :
    (cleanUpObjects
        (New FakeClock
          (failingAfterPage { Contents := [obj30, obj60] } (Error.msg "RequestError")))
        () "bucket" (20 * Minute) false).count = 0
      ∧ (cleanUpObjects
        (New FakeClock
          (failingAfterPage { Contents := [obj30, obj60] } (Error.msg "RequestError")))
        () "bucket" (20 * Minute) false).err
        = some (Error.wrapped (Error.msg "RequestError") "failed to list objects")
      ∧ (cleanUpObjects
        (New FakeClock
          (failingAfterPage { Contents := [obj30, obj60] } (Error.msg "RequestError")))
        () "bucket" (20 * Minute) false).calls = [Call.list { Bucket := "bucket" }] :=
  have h := list_failure_is_terminal
    (New FakeClock
      (failingAfterPage { Contents := [obj30, obj60] } (Error.msg "RequestError")))
    () "bucket" (20 * Minute) false ()
    [{ Key := "30min-old" }, { Key := "60min-old" }] (Error.msg "RequestError")
    (by decide)
  ⟨h.1, h.2.1, h.2.2.2.1⟩

/-- C7, counterexample. The delete request fails while its response lists one
key as deleted: the claim's count is 1, the run returns 0. -/
theorem delete_error_drops_reported_count :
    (scriptedS3 partialFailure).DeleteObjects
        { Bucket := "bucket",
          Delete := { Objects := [{ Key := "30min-old" }, { Key := "60min-old" }] } }
        [Call.list { Bucket := "bucket" }]
      = ([Call.list { Bucket := "bucket" },
          Call.delete
            { Bucket := "bucket",
              Delete := { Objects := [{ Key := "30min-old" }, { Key := "60min-old" }] } }],
         some { Deleted := [{ Key := "30min-old" }] },
         some (Error.msg "InternalError"))
      ∧ (cleanUpObjects (New FakeClock (scriptedS3 partialFailure)) [] "bucket"
          (20 * Minute) false).calls
        = [Call.list { Bucket := "bucket" },
           Call.delete
             { Bucket := "bucket",
               Delete := { Objects := [{ Key := "30min-old" }, { Key := "60min-old" }] } }]
      ∧ (cleanUpObjects (New FakeClock (scriptedS3 partialFailure)) [] "bucket"
          (20 * Minute) false).count
        ≠ reportedDeleted (some { Deleted := [{ Key := "30min-old" }] }) := by
  decide

/-- Witness of C7, amended: the same failing delete; the wrapped error and
count 0. -/
theorem delete_failure_returns_zero_witness :
    (cleanUpObjects (New FakeClock (scriptedS3 partialFailure)) [] "bucket"
        (20 * Minute) false).err
        = some (Error.wrapped (Error.msg "InternalError") "failed to delete objects")
      ∧ (cleanUpObjects (New FakeClock (scriptedS3 partialFailure)) [] "bucket"
          (20 * Minute) false).count = 0 :=
  have h := delete_failure_returns_zero (New FakeClock (scriptedS3 partialFailure))
    [] "bucket" (20 * Minute) [Call.list { Bucket := "bucket" }]
    [Call.list { Bucket := "bucket" },
     Call.delete
       { Bucket := "bucket",
         Delete := { Objects := [{ Key := "30min-old" }, { Key := "60min-old" }] } }]
    [{ Key := "30min-old" }, { Key := "60min-old" }]
    (some { Deleted := [{ Key := "30min-old" }] }) (Error.msg "InternalError")
    (by decide) (by decide) (by decide)
  ⟨h.1, h.2.2.1⟩

/-- C1, the code at a two-page listing. The first page holds the objects aged 10
and 30 minutes, the second the object aged 60 minutes, and `maxAge` is 20
minutes. The object of the second page is older than `maxAge`, yet the
candidate slice and the single delete batch hold the key of the first page's
old object only: the callback returns `lastPage`, false on the first page, and
the pagination loop stops there. -/
theorem second_page_is_never_read :
    obj60 ∈ listed twoPages.pages
      ∧ FakeClock.Since obj60.LastModified > 20 * Minute
      ∧ ((scriptedS3 twoPages).ListObjectsV2Pages (List ObjectIdentifier)
          { Bucket := "bucket" } (cleanUpObjects.fn FakeClock (20 * Minute)) [] []).2
        = ([{ Key := "30min-old" }], none)
      ∧ cleanUpObjects (New FakeClock (scriptedS3 twoPages)) [] "bucket"
          (20 * Minute) false
        = { state :=
              [Call.list { Bucket := "bucket" },
               Call.delete
                 { Bucket := "bucket",
                   Delete := { Objects := [{ Key := "30min-old" }] } }],
            calls :=
              [Call.list { Bucket := "bucket" },
               Call.delete
                 { Bucket := "bucket",
                   Delete := { Objects := [{ Key := "30min-old" }] } }],
            count := 1, err := none } := by
  decide

/-- C8, counterexample. The third case of `TestCleanUpObjects` as the test runs
it, with bucket `""`: no error is reported, the listing and the delete request
are both issued with an empty bucket name, and two objects are deleted. -/
theorem empty_bucket_is_not_rejected :
    cleanUpObjects (New FakeClock (mockS3Client [obj10, obj30, obj60])) () ""
        (20 * Minute) false
      = { state := (),
          calls :=
            [Call.list { Bucket := "" },
             Call.delete
               { Bucket := "",
                 Delete := { Objects := [{ Key := "30min-old" }, { Key := "60min-old" }] } }],
          count := 2, err := none } := by
  decide

/-- C8, amended. The empty bucket name is rejected by `main`: with bucket `""`
it ends fatally with the message that the bucket name is not set and makes no
call on the gateway, whatever the other settings. `cleanUpObjects` does not
check the name: called with bucket `""` on any gateway it issues the listing
request with that name first, and the only errors it returns are the wrapped
listing error and a wrapped delete error. -/
theorem empty_bucket_rejected_by_main {σ : Type} (c : Client σ) (s : σ)
    (region : String) (maxAge : Duration) (dryRun : Bool)
    (newS3Session : String → Except Error (S3API σ)) (clock : Clock) :
    (main "" region maxAge dryRun newS3Session clock s).exit
        = Exit.fatal "bucket name not set from cli or environment variable BUCKET_NAME"
      ∧ (main "" region maxAge dryRun newS3Session clock s).calls = []
      ∧ (main "" region maxAge dryRun newS3Session clock s).state = s
      ∧ (cleanUpObjects c s "" maxAge dryRun).calls.head?
        = some (Call.list { Bucket := "" })
      ∧ ((cleanUpObjects c s "" maxAge dryRun).err = none
        ∨ (∃ e, (c.S3API.ListObjectsV2Pages (List ObjectIdentifier)
              { Bucket := "" } (cleanUpObjects.fn c.clock maxAge) s []).2.2 = some e
            ∧ (cleanUpObjects c s "" maxAge dryRun).err
              = some (Wrapf e "failed to list objects"))
        ∨ ∃ e, (cleanUpObjects c s "" maxAge dryRun).err
              = some (Wrapf e "failed to delete objects")) := by
  refine ⟨by simp [main], by simp [main], by simp [main], ?_, ?_⟩
  all_goals
    rcases hlist : c.S3API.ListObjectsV2Pages (List ObjectIdentifier)
      { Bucket := "" } (cleanUpObjects.fn c.clock maxAge) s [] with ⟨s1, cands, e⟩
    cases e with
    | some e =>
      rw [cleanUp_list_failed c s "" maxAge dryRun s1 cands e hlist]
      simp
    | none =>
      by_cases hne : cands = []
      · subst hne
        rw [cleanUp_nothing c s "" maxAge dryRun s1 hlist]
        simp
      · cases dryRun with
        | true =>
          rw [cleanUp_dry c s "" maxAge s1 cands hlist]
          simp
        | false =>
          rcases hdel : c.S3API.DeleteObjects
            { Bucket := "", Delete := { Objects := cands } } s1 with ⟨s2, out, e2⟩
          cases e2 with
          | some e2 =>
            rw [cleanUp_delete_failed c s "" maxAge s1 s2 cands out e2 hlist hne hdel]
            first
              | simp; done
              | exact Or.inr (Or.inr ⟨e2, rfl⟩)
          | none =>
            rw [cleanUp_deleted c s "" maxAge s1 s2 cands out hlist hne hdel]
            simp

/-- C9, count against the echoing test gateway. For every list of objects served
by `mockS3Client` as a single final page, every bucket name and every `maxAge`,
the run with `FakeClock` and `dryRun` false returns no error and the number of
listed objects whose age `FakeClock.Now().Sub(lastModified)` is strictly greater
than `maxAge`. The three cases of the test: no object gives 0; one object aged
60 minutes with `maxAge` 60 minutes gives 0; objects aged 10, 30 and 60 minutes
with `maxAge` 20 minutes give 2. -/
theorem count_against_echoing_gateway :
    (∀ (listObjects : List Object) (bucket : String) (maxAge : Duration),
      (cleanUpObjects (New FakeClock (mockS3Client listObjects)) () bucket
          maxAge false).err = none
        ∧ (cleanUpObjects (New FakeClock (mockS3Client listObjects)) () bucket
            maxAge false).count
          = listObjects.countP fun o =>
              decide (Time.Sub FakeClock.Now o.LastModified > maxAge))
      ∧ (cleanUpObjects (New FakeClock (mockS3Client [])) () ""
          (60 * Minute) false).count = 0
      ∧ (cleanUpObjects (New FakeClock (mockS3Client [obj60])) () ""
          (60 * Minute) false).count = 0
      ∧ (cleanUpObjects (New FakeClock (mockS3Client [obj10, obj30, obj60])) () ""
          (20 * Minute) false).count = 2 := by
  refine ⟨?_, by decide, by decide, by decide⟩
  intro listObjects bucket maxAge
  have hlist := mock_list listObjects FakeClock maxAge { Bucket := bucket }
  by_cases hne : candidatesOf FakeClock maxAge listObjects = []
  · rw [hne] at hlist
    rw [cleanUp_nothing (New FakeClock (mockS3Client listObjects)) () bucket maxAge
      false () hlist]
    have := candidatesOf_length FakeClock maxAge listObjects
    rw [hne] at this
    exact ⟨rfl, by simpa [FakeClock] using this⟩
  · rw [cleanUp_deleted (New FakeClock (mockS3Client listObjects)) () bucket maxAge
      () () _ _ hlist hne (mock_delete listObjects _)]
    refine ⟨rfl, ?_⟩
    have := candidatesOf_length FakeClock maxAge listObjects
    simpa [reportedDeleted, FakeClock] using this

/-- C10, the code on a bucket of two old objects listed one per page. The first
run deletes the object of the first page only and leaves the other; the second
run, on the bucket the first run left, deletes that one and returns count 1
where idempotence asks for 0. -/
theorem second_run_still_deletes :
    cleanUpObjects (New FakeClock (bucketS3 1)) [obj30, obj60] "bucket"
        (20 * Minute) false
      = { state := [obj60],
          calls :=
            [Call.list { Bucket := "bucket" },
             Call.delete
               { Bucket := "bucket",
                 Delete := { Objects := [{ Key := "30min-old" }] } }],
          count := 1, err := none }
      ∧ cleanUpObjects (New FakeClock (bucketS3 1)) [obj60] "bucket"
          (20 * Minute) false
        = { state := [],
            calls :=
              [Call.list { Bucket := "bucket" },
               Call.delete
                 { Bucket := "bucket",
                   Delete := { Objects := [{ Key := "60min-old" }] } }],
            count := 1, err := none } := by
  decide

/-- On a listing served as a single final page, the candidate slice is the keys
of all listed entries older than `maxAge`, in listing order. -/
theorem single_page_candidates (sc : Script) (clock : Clock) (maxAge : Duration)
    (log : List Call) (input : ListObjectsV2Input) (page : ListObjectsV2Output)
    (hpages : sc.pages = [page]) :
    ((scriptedS3 sc).ListObjectsV2Pages (List ObjectIdentifier) input
        (cleanUpObjects.fn clock maxAge) log []).2
      = (candidatesOf clock maxAge (listed sc.pages), none) := by
  rw [scripted_list, hpages]
  simp [listed]

/-- C3, the code at a two-page listing. Each page holds one object older than
`maxAge` (30 and 60 minutes against 20 minutes), so the keys of the listed
objects older than `maxAge` are `30min-old` and `60min-old`. The listing
succeeds, and the run with `dryRun` false issues exactly one delete request, for
the same bucket, but its batch holds `30min-old` only: the key of the second
page's object is dropped, and the run returns count 1 with no error. -/
theorem delete_batch_drops_second_page :
    candidatesOf FakeClock (20 * Minute) (listed twoOldPages.pages)
        = [{ Key := "30min-old" }, { Key := "60min-old" }]
      ∧ ((scriptedS3 twoOldPages).ListObjectsV2Pages (List ObjectIdentifier)
          { Bucket := "bucket" } (cleanUpObjects.fn FakeClock (20 * Minute)) [] []).2
        = ([{ Key := "30min-old" }], none)
      ∧ (cleanUpObjects (New FakeClock (scriptedS3 twoOldPages)) [] "bucket"
          (20 * Minute) false).calls
        = [Call.list { Bucket := "bucket" },
           Call.delete
             { Bucket := "bucket",
               Delete := { Objects := [{ Key := "30min-old" }] } }]
      ∧ (cleanUpObjects (New FakeClock (scriptedS3 twoOldPages)) [] "bucket"
          (20 * Minute) false).count = 1
      ∧ (cleanUpObjects (New FakeClock (scriptedS3 twoOldPages)) [] "bucket"
          (20 * Minute) false).err = none := by
  decide

end S3Cleaner
